import Mathlib

/-!
Shallow embedding of the karalabe/hid device layer (Go) in Lean 4.

The Go package exposes HID device handles (`Device` in hid_enabled.go) and
generic libusb device handles (`GenericDevice` in generic.go).  Native
pointers (`*C.hid_device`, `GenericDeviceHandle`, `GenericLibUsbDevice`)
are modelled as `Option Nat`: `none` is the nil pointer, `some n` a live
native reference.  Byte slices are `List Nat`; the C backend primitives
are passed in as explicit function parameters since they live outside the
Go layer.  Each Go method that reads `dev.device` twice (once before the
native call and once on the failure path, each read under the lock) takes
the two observed snapshots as separate parameters, which models a
concurrent `Close` happening between the two reads.
-/

namespace Hid

/-- A byte of a Go `[]byte` buffer. -/
abbrev Byte := Nat

/-- Error values returned by the Go layer, one constructor per distinct
error produced in the source: the `ErrDeviceClosed` and
`ErrUnsupportedPlatform` sentinels, the open failure, the generic
missing-endpoint failure (which carries vendor, product and interface as
in `fmt.Errorf("Missing endpoint in device %#x:%#x:%d", ...)`), and
transfer failures built from the backend's `hid_error` string. -/
inductive HidError where
  | deviceClosed : HidError
  | unsupportedPlatform : HidError
  | openFailed (msg : String) : HidError
  | missingEndpoint (vendor product : Nat) (iface : Int) : HidError
  | transferError (msg : String) : HidError
deriving DecidableEq, Repr

/-- `DeviceInfo` from hid_enabled.go: the HID device descriptor, plain
identity data gathered during enumeration. -/
structure DeviceInfo where
  Path : String
  VendorID : Nat
  ProductID : Nat
  Release : Nat
  Serial : String
  Manufacturer : String
  Product : String
  UsagePage : Nat
  Usage : Nat
  Interface : Int
deriving DecidableEq, Repr

/-- `Device` from hid_enabled.go: a live HID handle embedding its
descriptor plus the native `*C.hid_device` reference (`none` once
closed). -/
structure Device where
  info : DeviceInfo
  device : Option Nat
deriving DecidableEq, Repr

/-- Outcome of one Go I/O method: the `(int, error)` pair it returns,
plus whether the native backend primitive was invoked at all during the
call (used to state the no-op and closed-check contracts). -/
structure IOOutcome where
  count : Int
  err : Option HidError
  backendInvoked : Bool
deriving DecidableEq, Repr

/-- The error produced on the shared failure path of the four HID I/O
methods once the device is known to still be open: `hid_error` returning
nil yields `errors.New("hidapi: unknown failure")`, otherwise
`errors.New("hidapi: " + failure)`. -/
def hidFailure (message : Option String) : HidError :=
  match message with
  | none => .transferError "hidapi: unknown failure"
  | some failure => .transferError ("hidapi: " ++ failure)

/-- `Device.Write` from hid_enabled.go.  `goos` is `runtime.GOOS`;
`hidWrite` is the `C.hid_write` primitive (native handle and report
buffer to count-or-(-1)); `hidError` is `C.hid_error` followed by
`wcharTToString`; `dev1` and `dev2` are the two lock-protected snapshots
of `dev.device`.  On Windows a `0x00` report ID is prepended before the
transfer; the returned count is whatever `hid_write` reported. -/
def hid_Write (goos : String) (hidWrite : Nat → List Byte → Int)
    (hidError : Nat → Option String) (dev1 dev2 : Option Nat)
    (b : List Byte) : IOOutcome :=
  if b.length = 0 then ⟨0, none, false⟩
  else
    match dev1 with
    | none => ⟨0, some .deviceClosed, false⟩
    | some device =>
      let report : List Byte := if goos = "windows" then 0 :: b else b
      let written : Int := hidWrite device report
      if written = -1 then
        match dev2 with
        | none => ⟨0, some .deviceClosed, true⟩
        | some device2 => ⟨0, some (hidFailure (hidError device2)), true⟩
      else ⟨written, none, true⟩

/-- `Device.SendFeatureReport` from hid_enabled.go: same shape as
`Write` but with no report-ID prefixing, delegating to
`C.hid_send_feature_report`. -/
def hid_SendFeatureReport (hidSendFeatureReport : Nat → List Byte → Int)
    (hidError : Nat → Option String) (dev1 dev2 : Option Nat)
    (b : List Byte) : IOOutcome :=
  if b.length = 0 then ⟨0, none, false⟩
  else
    match dev1 with
    | none => ⟨0, some .deviceClosed, false⟩
    | some device =>
      let written : Int := hidSendFeatureReport device b
      if written = -1 then
        match dev2 with
        | none => ⟨0, some .deviceClosed, true⟩
        | some device2 => ⟨0, some (hidFailure (hidError device2)), true⟩
      else ⟨written, none, true⟩

/-- `Device.Read` from hid_enabled.go, delegating to `C.hid_read`. -/
def hid_Read (hidRead : Nat → List Byte → Int)
    (hidError : Nat → Option String) (dev1 dev2 : Option Nat)
    (b : List Byte) : IOOutcome :=
  if b.length = 0 then ⟨0, none, false⟩
  else
    match dev1 with
    | none => ⟨0, some .deviceClosed, false⟩
    | some device =>
      let read : Int := hidRead device b
      if read = -1 then
        match dev2 with
        | none => ⟨0, some .deviceClosed, true⟩
        | some device2 => ⟨0, some (hidFailure (hidError device2)), true⟩
      else ⟨read, none, true⟩

/-- `Device.GetFeatureReport` from hid_enabled.go, delegating to
`C.hid_get_feature_report`. -/
def hid_GetFeatureReport (hidGetFeatureReport : Nat → List Byte → Int)
    (hidError : Nat → Option String) (dev1 dev2 : Option Nat)
    (b : List Byte) : IOOutcome :=
  if b.length = 0 then ⟨0, none, false⟩
  else
    match dev1 with
    | none => ⟨0, some .deviceClosed, false⟩
    | some device =>
      let read : Int := hidGetFeatureReport device b
      if read = -1 then
        match dev2 with
        | none => ⟨0, some .deviceClosed, true⟩
        | some device2 => ⟨0, some (hidFailure (hidError device2)), true⟩
      else ⟨read, none, true⟩

/-- `Device.Close` from hid_enabled.go: under the lock, if the native
reference is present it is closed via `C.hid_close` and cleared; the
method always returns nil. -/
def hid_Close (dev : Device) : Device × Option HidError :=
  ({ dev with device := none }, none)

/-- `Device.Open` (`DeviceInfo.Open`) from hid_enabled.go:
`C.hid_open_path` on the descriptor's path; nil yields
`errors.New("hidapi: failed to open device")`, otherwise a handle
embedding the descriptor. -/
def di_Open (hidOpenPath : String → Option Nat) (info : DeviceInfo) :
    Except HidError Device :=
  match hidOpenPath info.Path with
  | none => .error (.openFailed "hidapi: failed to open device")
  | some device => .ok ⟨info, some device⟩

/-- `Device.Connected` from hid_enabled.go: nil reference reports false
at once; otherwise the handle's vendor/product pair is re-enumerated
(`enum` is the `Enumerate` call) and the handle stays live iff some
descriptor carries the same serial; on no match the native reference is
closed and cleared and false is returned. -/
def hid_Connected (enum : Nat → Nat → List DeviceInfo) (dev : Device) :
    Device × Bool :=
  match dev.device with
  | none => (dev, false)
  | some _ =>
    let deviceInfos := enum dev.info.VendorID dev.info.ProductID
    if deviceInfos.any (fun info => dev.info.Serial = info.Serial) then
      (dev, true)
    else
      ({ dev with device := none }, false)

/-- Modelled from the spec: the native backend write primitive (the
vendored hidapi C code, which is not under src/).  Per the external
interface `write(handle, buf, len) -> int` and the observation that "the
backend transfer is observed to carry length L+1" on the prefixing
platform, a successful backend write reports the number of bytes of the
report buffer it carried. -/
def specBackendWrite (_handle : Nat) (report : List Byte) : Int :=
  (report.length : Int)

/-- `GenericEndpointDirectionOut` from generic.go. -/
def GenericEndpointDirectionOut : Nat := 0x00

/-- `GenericEndpointDirectionIn` from generic.go. -/
def GenericEndpointDirectionIn : Nat := 0x80

/-- `GenericEndpointAttributeInterrupt` from generic.go. -/
def GenericEndpointAttributeInterrupt : Nat := 3

/-- `GenericEndpoint` from generic.go: one USB endpoint descriptor. -/
structure GenericEndpoint where
  Address : Nat
  Direction : Nat
  Attributes : Nat
deriving DecidableEq, Repr

/-- `GenericDeviceInfo` from generic.go: the generic (libusb) device
descriptor.  Its `Device` field is the `GenericLibUsbDevice` pointer
(`*C.struct_libusb_device`), a reference to the native libusb device
object, modelled like every native pointer as `Option Nat`. -/
structure GenericDeviceInfo where
  Path : String
  VendorID : Nat
  ProductID : Nat
  Device : Option Nat
  Interface : Int
  Endpoints : List GenericEndpoint
deriving DecidableEq, Repr

/-- `GenericDevice` from generic.go: an open generic handle embedding
its descriptor, the resolved read/write interrupt endpoints and the
native `GenericDeviceHandle` (`none` once closed). -/
structure GenericDevice where
  info : GenericDeviceInfo
  REndpoint : Nat
  WEndpoint : Nat
  device : Option Nat
deriving DecidableEq, Repr

deriving instance DecidableEq for Except

/-- Outcome of `GenericDeviceInfo.Open`: the returned handle-or-error,
the native handle the backend `GenericDeviceOpen` produced (if it
succeeded), and whether `GenericDeviceClose` was invoked on it before
the method returned. -/
structure OpenOutcome where
  result : Except HidError GenericDevice
  nativeOpened : Option Nat
  nativeClosed : Bool
deriving DecidableEq, Repr

/-- The endpoint scan in `GenericDeviceInfo.Open` (generic.go): each
OUT-interrupt endpoint overwrites `WEndpoint`, each IN-interrupt
endpoint overwrites `REndpoint`, in list order. -/
def scanEndpoints (d : GenericDevice) (endpoints : List GenericEndpoint) :
    GenericDevice :=
  endpoints.foldl
    (fun d endpoint =>
      if endpoint.Direction = GenericEndpointDirectionOut ∧
          endpoint.Attributes = GenericEndpointAttributeInterrupt then
        { d with WEndpoint := endpoint.Address }
      else if endpoint.Direction = GenericEndpointDirectionIn ∧
          endpoint.Attributes = GenericEndpointAttributeInterrupt then
        { d with REndpoint := endpoint.Address }
      else d)
    d

/-- `GenericDeviceInfo.Open` from generic.go: opens the native libusb
device held in the descriptor's `Device` field via `GenericDeviceOpen`
(passed in as `genericOpen`), scans the descriptor's endpoint list for
the interrupt pair, and fails with the missing-endpoint error when
either role is still the zero value.  The source never calls
`GenericDeviceClose` on any path of this method, which the
`nativeClosed` field records. -/
def gdi_Open (genericOpen : Option Nat → Except HidError Nat)
    (gdi : GenericDeviceInfo) : OpenOutcome :=
  match genericOpen gdi.Device with
  | .error err => ⟨.error err, none, false⟩
  | .ok device =>
    let newDev := scanEndpoints ⟨gdi, 0, 0, some device⟩ gdi.Endpoints
    if newDev.REndpoint = 0 ∨ newDev.WEndpoint = 0 then
      ⟨.error (.missingEndpoint gdi.VendorID gdi.ProductID gdi.Interface),
        some device, false⟩
    else ⟨.ok newDev, some device, false⟩

/-- `GenericDevice.Close` from generic.go: under the lock, a present
native reference is closed via `GenericDeviceClose` and cleared; always
returns nil. -/
def gd_Close (gd : GenericDevice) : GenericDevice × Option HidError :=
  ({ gd with device := none }, none)

/-- `GenericDevice.Write` from generic.go: unconditionally calls
`InterruptTransfer(gd.device, gd.WEndpoint, b, 0)` (here the parameter
`it`, taking the possibly-nil native handle, the endpoint address, the
buffer and the timeout) and returns the transferred slice's length with
the backend's error.  There is no closed-state check and no empty-buffer
check. -/
def gd_Write
    (it : Option Nat → Nat → List Byte → Nat → List Byte × Option HidError)
    (gd : GenericDevice) (b : List Byte) : IOOutcome :=
  let out := it gd.device gd.WEndpoint b 0
  ⟨(out.1.length : Int), out.2, true⟩

/-- `GenericDevice.Read` from generic.go: unconditionally calls
`InterruptTransfer(gd.device, gd.REndpoint, b, 0)` and returns the
transferred slice's length with the backend's error. -/
def gd_Read
    (it : Option Nat → Nat → List Byte → Nat → List Byte × Option HidError)
    (gd : GenericDevice) (b : List Byte) : IOOutcome :=
  let out := it gd.device gd.REndpoint b 0
  ⟨(out.1.length : Int), out.2, true⟩

/-- `Supported` from the disabled (unsupported-platform) build of
hid_enabled.go. -/
def Supported_disabled : Bool := false

/-- `Enumerate` from the disabled build: always the empty list. -/
def Enumerate_disabled (_vendorID _productID : Nat) : List DeviceInfo :=
  []

/-- `HidDeviceInfo.Open` from the disabled build: always the
unsupported-platform error, no handle. -/
def hdi_Open_disabled : Except HidError Device :=
  .error .unsupportedPlatform

/-- `HidDevice.Close` from the disabled build: a no-op returning nil. -/
def hidDev_Close_disabled : Option HidError := none

/-- `HidDevice.Write` from the disabled build. -/
def hidDev_Write_disabled (_b : List Byte) : Int × Option HidError :=
  (0, some .unsupportedPlatform)

/-- `HidDevice.Read` from the disabled build. -/
def hidDev_Read_disabled (_b : List Byte) : Int × Option HidError :=
  (0, some .unsupportedPlatform)

/-- `GenericDeviceOpen` from the disabled build: always the
unsupported-platform error. -/
def GenericDeviceOpen_disabled (_dev : Option Nat) :
    Except HidError Nat :=
  .error .unsupportedPlatform

/-- `InterruptTransfer` from the disabled build: returns `data[:0]` and
the unsupported-platform error. -/
def InterruptTransfer_disabled (_handle : Option Nat) (_endpoint : Nat)
    (_data : List Byte) (_timeout : Nat) : List Byte × Option HidError :=
  ([], some .unsupportedPlatform)

/-- `DeviceType` from usb.go. -/
abbrev DeviceType := Int

/-- `DeviceTypeGeneric` from usb.go. -/
def DeviceTypeGeneric : DeviceType := 0

/-- `DeviceTypeHID` from usb.go. -/
def DeviceTypeHID : DeviceType := 0

/-- `GenericDeviceInfo.Type` from generic.go. -/
def gdi_Type (_gdi : GenericDeviceInfo) : DeviceType :=
  DeviceTypeGeneric

/-- Modelled from the spec: the HID-side `Type()` method required by the
`DeviceInfo` interface in usb.go is not under src/; per the interface it
reports the HID device-type constant. -/
def hdi_Type (_info : DeviceInfo) : DeviceType :=
  DeviceTypeHID

/-- Outcome of waiting for one input report. -/
inductive ReadOutcome where
  | received (afterMs : Nat) : ReadOutcome
  | timedOut : ReadOutcome
  | blockedForever : ReadOutcome
deriving DecidableEq, Repr

/-- Modelled from the spec: the blocking `Read` wait.  `arrival` is when
the next input report becomes available (`none` = never): the unbounded
read returns it whenever it arrives and otherwise blocks forever. -/
def read_wait (arrival : Option Nat) : ReadOutcome :=
  match arrival with
  | some a => .received a
  | none => .blockedForever

/-- Modelled from the spec: `ReadTimeout`, whose implementation is not
under src/ (only the `Device` interface in hid_enabled.go declares it).
Per the contract "bounded wait; a negative timeout means block
indefinitely": a negative `timeout` behaves as the unbounded `Read`,
while a non-negative `timeout` waits at most `timeout` milliseconds and
then reports a timeout instead of blocking. -/
def readTimeout_wait (arrival : Option Nat) (timeout : Int) :
    ReadOutcome :=
  if timeout < 0 then read_wait arrival
  else
    match arrival with
    | some a => if (a : Int) ≤ timeout then .received a else .timedOut
    | none => .timedOut

/-- An interrupt-transfer backend that echoes the buffer and reports no
error, used to observe what the generic handle methods pass to the
backend. -/
def echoTransfer :
    Option Nat → Nat → List Byte → Nat → List Byte × Option HidError :=
  fun _ _ b _ => (b, none)

/-- A generic handle whose native reference is present. -/
def openGenericHandle : GenericDevice :=
  ⟨⟨"gen0", 0x1234, 0x5678, some 7, 0, []⟩, 0x81, 0x01, some 3⟩

/-- A generic handle whose native reference has been cleared. -/
def closedGenericHandle : GenericDevice :=
  ⟨⟨"gen0", 0x1234, 0x5678, some 7, 0, []⟩, 0x81, 0x01, none⟩

/-- A generic descriptor whose endpoint list holds only an IN-bulk
endpoint (address `0x81`, direction IN, attributes `2` = bulk): no
interrupt pair can be resolved from it. -/
def bulkOnlyInfo : GenericDeviceInfo :=
  ⟨"gen1", 0x1234, 0x5678, some 7, 0, [⟨0x81, 0x80, 2⟩]⟩

/-- A generic descriptor with a full interrupt endpoint pair. -/
def interruptPairInfo : GenericDeviceInfo :=
  ⟨"gen2", 1, 2, some 9, 1, [⟨0x01, 0x00, 3⟩, ⟨0x82, 0x80, 3⟩]⟩

/-- A backend `GenericDeviceOpen` that succeeds on any present native
device reference, handing back that reference as the opened handle. -/
def openOk : Option Nat → Except HidError Nat :=
  fun r =>
    match r with
    | some n => .ok n
    | none => .error (.openFailed "no device")

/-- An HID descriptor fixture. -/
def exampleHidInfo : DeviceInfo :=
  ⟨"usb:001", 0x1234, 0x5678, 0x0100, "SN-1", "maker", "thing", 0, 0, 0⟩

/-- An open HID handle fixture. -/
def exampleHidHandle : Device :=
  ⟨exampleHidInfo, some 3⟩

/-- C1: on the report-ID-prefixing platform (`GOOS = windows`) the
transport carries `L+1` bytes and `Device.Write` hands that backend
count straight back to the caller, so a successful `Write` of the
3-byte payload `[0x01, 0x02, 0x03]` returns 4, not 3; on a
non-prefixing platform it returns 3.  This contradicts the claim that
the caller-visible count equals the payload length on every platform:
the source applies no `-1` adjustment after prefixing. -/
theorem write_windows_returns_prefixed_length :
    (hid_Write "windows" specBackendWrite (fun _ => none) (some 1) (some 1)
        [0x01, 0x02, 0x03]).count = 4 ∧
    (hid_Write "linux" specBackendWrite (fun _ => none) (some 1) (some 1)
        [0x01, 0x02, 0x03]).count = 3 ∧
    (hid_Write "windows" specBackendWrite (fun _ => none) (some 1) (some 1)
        [0x01, 0x02, 0x03]).err = none := by
  refine ⟨rfl, rfl, rfl⟩

/-- C4: opening the generic descriptor whose endpoint list holds only an
IN-bulk endpoint fails with the missing-endpoint error naming the
vendor, product and interface, and returns no handle — but the natively
opened device handle (`some 7`) is never closed before returning: the
source has no `GenericDeviceClose` call on this failure path, so the
native handle is leaked as a live resource. -/
theorem generic_open_missing_endpoint_leaks_handle :
    (gdi_Open openOk bulkOnlyInfo).result =
      .error (.missingEndpoint 0x1234 0x5678 0) ∧
    (gdi_Open openOk bulkOnlyInfo).nativeOpened = some 7 ∧
    (gdi_Open openOk bulkOnlyInfo).nativeClosed = false := by
  refine ⟨rfl, rfl, rfl⟩

/-- C10: `DeviceTypeGeneric` and `DeviceTypeHID` are both the constant
0, so the `Type()` of a generic descriptor coincides with the HID type
constant (and vice versa): `Type()` cannot distinguish the two
transport kinds. -/
theorem device_type_indistinguishable :
    DeviceTypeGeneric = DeviceTypeHID ∧
    (∀ gdi : GenericDeviceInfo, gdi_Type gdi = DeviceTypeHID) ∧
    (∀ info : DeviceInfo, hdi_Type info = DeviceTypeGeneric) :=
  ⟨rfl, fun _ => rfl, fun _ => rfl⟩

/-- C7: on the unsupported-platform build, `Supported` reports false,
`Enumerate` yields the empty list for every vendor/product pair, the
HID `Open` fails with the unsupported-platform error and returns no
handle, the generic `Open` (whose backend open is the disabled
`GenericDeviceOpen`) fails the same way for every descriptor with no
native handle produced, the handle operations return the
unsupported-platform error, and `Close` is a nil-returning no-op. -/
theorem unsupported_platform_behavior :
    Supported_disabled = false ∧
    (∀ v p : Nat, Enumerate_disabled v p = []) ∧
    hdi_Open_disabled = .error .unsupportedPlatform ∧
    (∀ gdi : GenericDeviceInfo,
      (gdi_Open GenericDeviceOpen_disabled gdi).result =
        .error .unsupportedPlatform ∧
      (gdi_Open GenericDeviceOpen_disabled gdi).nativeOpened = none) ∧
    (∀ b : List Byte,
      hidDev_Write_disabled b = (0, some .unsupportedPlatform) ∧
      hidDev_Read_disabled b = (0, some .unsupportedPlatform)) ∧
    hidDev_Close_disabled = none ∧
    (∀ (h : Option Nat) (e : Nat) (d : List Byte) (t : Nat),
      InterruptTransfer_disabled h e d t = ([], some .unsupportedPlatform)) :=
  ⟨rfl, fun _ _ => rfl, rfl, fun _ => ⟨rfl, rfl⟩, fun _ => ⟨rfl, rfl⟩, rfl,
    fun _ _ _ _ => rfl⟩

/-- C2 counterexample: on a generic handle whose native reference is
absent, `Read` of the non-empty buffer `[0x05]` does invoke the backend
interrupt transfer (handing it the nil reference) and forwards the
backend's result instead of returning the DeviceClosed error: with an
echoing backend it returns count 1 and no error. -/
theorem generic_read_closed_invokes_backend :
    (gd_Read echoTransfer closedGenericHandle [0x05]).backendInvoked = true ∧
    (gd_Read echoTransfer closedGenericHandle [0x05]).err ≠
      some .deviceClosed ∧
    (gd_Read echoTransfer closedGenericHandle [0x05]).count = 1 := by
  refine ⟨rfl, by decide, rfl⟩

/-- C2 amended: the closed/error-retrieval discipline holds for the HID
handle methods — each of Write, Read, SendFeatureReport and
GetFeatureReport on a non-empty buffer returns DeviceClosed without
invoking the backend when the reference is absent, and on a backend
`-1` the reference is re-checked: DeviceClosed if it became absent,
otherwise a transfer error built from the backend's message — while the
generic handle methods perform no closed-state check at all: Read and
Write always invoke the interrupt transfer, whatever the reference. -/
theorem hid_closed_check_discipline
    (goos : String) (w r s g : Nat → List Byte → Int)
    (er : Nat → Option String) (dev2 : Option Nat) (b : List Byte)
    (hb : b ≠ []) :
    hid_Write goos w er none dev2 b = ⟨0, some .deviceClosed, false⟩ ∧
    hid_Read r er none dev2 b = ⟨0, some .deviceClosed, false⟩ ∧
    hid_SendFeatureReport s er none dev2 b =
      ⟨0, some .deviceClosed, false⟩ ∧
    hid_GetFeatureReport g er none dev2 b =
      ⟨0, some .deviceClosed, false⟩ ∧
    (∀ d : Nat, r d b = -1 →
      hid_Read r er (some d) none b = ⟨0, some .deviceClosed, true⟩ ∧
      ∀ d2 : Nat, hid_Read r er (some d) (some d2) b =
        ⟨0, some (hidFailure (er d2)), true⟩) ∧
    (∀ d : Nat, w d (if goos = "windows" then 0 :: b else b) = -1 →
      hid_Write goos w er (some d) none b =
        ⟨0, some .deviceClosed, true⟩ ∧
      ∀ d2 : Nat, hid_Write goos w er (some d) (some d2) b =
        ⟨0, some (hidFailure (er d2)), true⟩) ∧
    (∀ d : Nat, s d b = -1 →
      hid_SendFeatureReport s er (some d) none b =
        ⟨0, some .deviceClosed, true⟩ ∧
      ∀ d2 : Nat, hid_SendFeatureReport s er (some d) (some d2) b =
        ⟨0, some (hidFailure (er d2)), true⟩) ∧
    (∀ d : Nat, g d b = -1 →
      hid_GetFeatureReport g er (some d) none b =
        ⟨0, some .deviceClosed, true⟩ ∧
      ∀ d2 : Nat, hid_GetFeatureReport g er (some d) (some d2) b =
        ⟨0, some (hidFailure (er d2)), true⟩) ∧
    (∀ (it : Option Nat → Nat → List Byte → Nat →
          List Byte × Option HidError) (gd : GenericDevice),
      gd.device = none →
      (gd_Read it gd b).backendInvoked = true ∧
      (gd_Write it gd b).backendInvoked = true ∧
      (gd_Read it gd b).err = (it none gd.REndpoint b 0).2) := by
  have hlen : ¬ b.length = 0 := by
    simpa [List.length_eq_zero] using hb
  refine ⟨?_, ?_, ?_, ?_, ?_, ?_, ?_, ?_, ?_⟩
  · simp [hid_Write, hlen]
  · simp [hid_Read, hlen]
  · simp [hid_SendFeatureReport, hlen]
  · simp [hid_GetFeatureReport, hlen]
  · intro d hd
    refine ⟨?_, fun d2 => ?_⟩ <;> simp [hid_Read, hlen, hd]
  · intro d hd
    refine ⟨?_, fun d2 => ?_⟩ <;> simp [hid_Write, hlen, hd]
  · intro d hd
    refine ⟨?_, fun d2 => ?_⟩ <;> simp [hid_SendFeatureReport, hlen, hd]
  · intro d hd
    refine ⟨?_, fun d2 => ?_⟩ <;> simp [hid_GetFeatureReport, hlen, hd]
  · intro it gd hgd
    refine ⟨rfl, rfl, ?_⟩
    simp [gd_Read, hgd]

/-- C2 amended, witness: a concrete closed HID read, a concrete
feature-report failure-path recheck, and a concrete closed generic
read. -/
theorem hid_closed_check_discipline_witness :
    hid_Read (fun _ _ => -1) (fun _ => none) none none [0x01] =
      ⟨0, some .deviceClosed, false⟩ ∧
    hid_SendFeatureReport (fun _ _ => -1) (fun _ => none) (some 2) none
      [0x01] = ⟨0, some .deviceClosed, true⟩ ∧
    (gd_Read echoTransfer closedGenericHandle [0x01]).backendInvoked =
      true :=
  ⟨(hid_closed_check_discipline "linux" (fun _ _ => -1) (fun _ _ => -1)
      (fun _ _ => -1) (fun _ _ => -1) (fun _ => none) none [0x01]
      (by decide)).2.1,
    ((hid_closed_check_discipline "linux" (fun _ _ => -1) (fun _ _ => -1)
      (fun _ _ => -1) (fun _ _ => -1) (fun _ => none) none [0x01]
      (by decide)).2.2.2.2.2.2.1 2 rfl).1,
    ((hid_closed_check_discipline "linux" (fun _ _ => -1) (fun _ _ => -1)
      (fun _ _ => -1) (fun _ _ => -1) (fun _ => none) none [0x01]
      (by decide)).2.2.2.2.2.2.2.2 echoTransfer closedGenericHandle
      rfl).1⟩

/-- C3 counterexample: after `Close` on a generic handle, a subsequent
`Write` does not observe the closed state: with an echoing backend it
returns count 1 with no error rather than the DeviceClosed error,
because the generic `Write` never checks the (cleared) reference. -/
theorem generic_write_after_close_not_device_closed :
    (gd_Write echoTransfer (gd_Close openGenericHandle).1 [0x09]).err ≠
      some .deviceClosed ∧
    (gd_Write echoTransfer (gd_Close openGenericHandle).1 [0x09]).err =
      none ∧
    (gd_Write echoTransfer (gd_Close openGenericHandle).1
      [0x09]).backendInvoked = true := by
  refine ⟨by decide, rfl, rfl⟩

/-- C3 amended: `Close` on either handle kind returns nil every time,
also when already closed, and clears the native reference permanently
(re-closing and the connectivity check keep it absent); every
subsequent HID Read or Write on a non-empty buffer then returns the
DeviceClosed error, while subsequent generic Reads and Writes instead
hand the cleared (nil) reference to the backend interrupt transfer. -/
theorem close_idempotent_and_permanent (dev : Device)
    (gd : GenericDevice) :
    (hid_Close dev).2 = none ∧
    (hid_Close (hid_Close dev).1).2 = none ∧
    (hid_Close (hid_Close dev).1).1 = (hid_Close dev).1 ∧
    (hid_Close dev).1.device = none ∧
    (gd_Close gd).2 = none ∧
    (gd_Close (gd_Close gd).1).2 = none ∧
    (gd_Close (gd_Close gd).1).1 = (gd_Close gd).1 ∧
    (gd_Close gd).1.device = none ∧
    (∀ enum : Nat → Nat → List DeviceInfo,
      (hid_Connected enum (hid_Close dev).1).1.device = none) ∧
    (∀ (goos : String) (f : Nat → List Byte → Int)
        (er : Nat → Option String) (b : List Byte), b ≠ [] →
      hid_Read f er (hid_Close dev).1.device (hid_Close dev).1.device b =
        ⟨0, some .deviceClosed, false⟩ ∧
      hid_Write goos f er (hid_Close dev).1.device
          (hid_Close dev).1.device b =
        ⟨0, some .deviceClosed, false⟩) ∧
    (∀ (it : Option Nat → Nat → List Byte → Nat →
        List Byte × Option HidError) (b : List Byte),
      (gd_Write it (gd_Close gd).1 b).backendInvoked = true ∧
      (gd_Write it (gd_Close gd).1 b).err =
        (it none (gd_Close gd).1.WEndpoint b 0).2 ∧
      (gd_Read it (gd_Close gd).1 b).err =
        (it none (gd_Close gd).1.REndpoint b 0).2) := by
  refine ⟨rfl, rfl, rfl, rfl, rfl, rfl, rfl, rfl, fun enum => rfl,
    ?_, ?_⟩
  · intro goos f er b hb
    have hlen : ¬ b.length = 0 := by
      simpa [List.length_eq_zero] using hb
    exact ⟨by simp [hid_Close, hid_Read, hlen],
      by simp [hid_Close, hid_Write, hlen]⟩
  · intro it b
    exact ⟨rfl, by simp [gd_Write, gd_Close], by simp [gd_Read, gd_Close]⟩

/-- C3 amended, witness: the concrete HID handle and generic handle,
closed twice, with a concrete subsequent read. -/
theorem close_idempotent_and_permanent_witness :
    (hid_Close exampleHidHandle).2 = none ∧
    (hid_Close (hid_Close exampleHidHandle).1).2 = none ∧
    hid_Read (fun _ _ => 1) (fun _ => none)
        (hid_Close exampleHidHandle).1.device
        (hid_Close exampleHidHandle).1.device [0x02] =
      ⟨0, some .deviceClosed, false⟩ :=
  ⟨(close_idempotent_and_permanent exampleHidHandle openGenericHandle).1,
    (close_idempotent_and_permanent exampleHidHandle
      openGenericHandle).2.1,
    ((close_idempotent_and_permanent exampleHidHandle
        openGenericHandle).2.2.2.2.2.2.2.2.2.1 "linux" (fun _ _ => 1)
      (fun _ => none) [0x02] (by decide)).1⟩

/-- C5 counterexample: on an open generic handle, `Write` of the
zero-length buffer is not a backend-free no-op: the source passes the
empty buffer straight to the interrupt transfer, so the backend is
invoked. -/
theorem generic_write_empty_buffer_invokes_backend :
    (gd_Write echoTransfer openGenericHandle []).backendInvoked = true :=
  rfl

/-- C5 amended: on HID handles each of Write, Read, SendFeatureReport
and GetFeatureReport with a zero-length buffer returns `(0, nil)`
without invoking the backend, whatever the open/closed state of the two
reference snapshots; generic handles instead pass even the zero-length
buffer to the backend interrupt transfer. -/
theorem zero_length_buffer_noop (goos : String)
    (w r s g : Nat → List Byte → Int) (er : Nat → Option String)
    (dev1 dev2 : Option Nat) :
    hid_Write goos w er dev1 dev2 [] = ⟨0, none, false⟩ ∧
    hid_Read r er dev1 dev2 [] = ⟨0, none, false⟩ ∧
    hid_SendFeatureReport s er dev1 dev2 [] = ⟨0, none, false⟩ ∧
    hid_GetFeatureReport g er dev1 dev2 [] = ⟨0, none, false⟩ ∧
    (∀ (it : Option Nat → Nat → List Byte → Nat →
        List Byte × Option HidError) (gd : GenericDevice),
      (gd_Write it gd []).backendInvoked = true ∧
      (gd_Read it gd []).backendInvoked = true) :=
  ⟨rfl, rfl, rfl, rfl, fun _ _ => ⟨rfl, rfl⟩⟩

/-- C6: `ReadTimeout` with a negative timeout behaves exactly as the
unbounded blocking `Read`, whatever the arrival of the next report,
while a non-negative timeout `t` bounds the wait by `t` milliseconds:
the call never blocks forever and any received report arrived within
`t` milliseconds. -/
theorem readTimeout_negative_blocks_indefinitely (arrival : Option Nat)
    (t : Int) :
    (t < 0 → readTimeout_wait arrival t = read_wait arrival) ∧
    (0 ≤ t → readTimeout_wait arrival t ≠ .blockedForever ∧
      ∀ a : Nat, readTimeout_wait arrival t = .received a →
        (a : Int) ≤ t) := by
  constructor
  · intro ht
    simp [readTimeout_wait, ht]
  · intro ht
    have hneg : ¬ t < 0 := not_lt.mpr ht
    cases arrival with
    | none =>
      refine ⟨by simp [readTimeout_wait, hneg], ?_⟩
      intro a ha
      simp [readTimeout_wait, hneg] at ha
    | some a0 =>
      by_cases hle : (a0 : Int) ≤ t
      · refine ⟨by simp [readTimeout_wait, hneg, hle], ?_⟩
        intro a ha
        simp [readTimeout_wait, hneg, hle] at ha
        exact ha ▸ hle
      · refine ⟨by simp [readTimeout_wait, hneg, hle], ?_⟩
        intro a ha
        simp [readTimeout_wait, hneg, hle] at ha

/-- C6 witness: with a report arriving after 2 ms, a timeout of `-1`
gives the unbounded-read outcome and a timeout of 5 ms does not block
forever. -/
theorem readTimeout_negative_blocks_indefinitely_witness :
    readTimeout_wait (some 2) (-1) = read_wait (some 2) ∧
    readTimeout_wait (some 2) 5 ≠ .blockedForever :=
  ⟨(readTimeout_negative_blocks_indefinitely (some 2) (-1)).1 (by decide),
    ((readTimeout_negative_blocks_indefinitely (some 2) 5).2
      (by decide)).1⟩

/-- C8: on an open HID handle whose device has been removed — the
re-enumeration of the handle's vendor/product identity reports no
descriptor with the handle's serial number — `Connected` returns false
and clears the native reference, so every subsequent `Read` on a
non-empty buffer returns the DeviceClosed error. -/
theorem connected_removed_device_closes_handle
    (enum : Nat → Nat → List DeviceInfo) (dev : Device) (d : Nat)
    (hdev : dev.device = some d)
    (hgone : ∀ info ∈ enum dev.info.VendorID dev.info.ProductID,
      info.Serial ≠ dev.info.Serial) :
    (hid_Connected enum dev).2 = false ∧
    (hid_Connected enum dev).1.device = none ∧
    (∀ (r : Nat → List Byte → Int) (er : Nat → Option String)
        (b : List Byte), b ≠ [] →
      hid_Read r er (hid_Connected enum dev).1.device
          (hid_Connected enum dev).1.device b =
        ⟨0, some .deviceClosed, false⟩) := by
  have hany : ((enum dev.info.VendorID dev.info.ProductID).any
      (fun info => decide (dev.info.Serial = info.Serial))) = false := by
    simp only [List.any_eq_false, decide_eq_true_eq]
    intro info hmem heq
    exact hgone info hmem (heq ▸ rfl)
  have hconn : hid_Connected enum dev =
      ({ dev with device := none }, false) := by
    simp [hid_Connected, hdev, hany]
  refine ⟨by simp [hconn], by simp [hconn], ?_⟩
  intro r er b hb
  have hlen : ¬ b.length = 0 := by
    simpa [List.length_eq_zero] using hb
  simp [hconn, hid_Read, hlen]

/-- C8 witness: the concrete open handle with an empty re-enumeration
result. -/
theorem connected_removed_device_closes_handle_witness :
    (hid_Connected (fun _ _ => []) exampleHidHandle).2 = false ∧
    (hid_Connected (fun _ _ => []) exampleHidHandle).1.device = none :=
  ⟨(connected_removed_device_closes_handle (fun _ _ => [])
      exampleHidHandle 3 rfl (by simp)).1,
    (connected_removed_device_closes_handle (fun _ _ => [])
      exampleHidHandle 3 rfl (by simp)).2.1⟩

/-- C9 counterexample: the generic descriptor type has a `Device` field
referring to the native libusb device object: the fixture descriptor
holds the native reference 9, and `Open` hands exactly that field to
the backend device-open call, which returns it as the opened native
handle. -/
theorem generic_descriptor_holds_native_device_ref :
    interruptPairInfo.Device ≠ none ∧
    interruptPairInfo.Device = some 9 ∧
    (gdi_Open openOk interruptPairInfo).nativeOpened = some 9 := by
  refine ⟨by decide, rfl, rfl⟩

/-- C9 amended: HID descriptors are pure identity data; the generic
descriptor additionally carries a reference to the native libusb device
object in its `Device` field, though never an open handle: any native
handle reachable from a descriptor is produced by the backend at open
time — from the generic descriptor's `Device` reference, or from the
HID descriptor's path string alone. -/
theorem descriptor_native_ref_flow :
    (∀ (gdi : GenericDeviceInfo)
        (f : Option Nat → Except HidError Nat) (h : Nat),
      (gdi_Open f gdi).nativeOpened = some h → f gdi.Device = .ok h) ∧
    (∀ (info : DeviceInfo) (g : String → Option Nat) (dev : Device),
      di_Open g info = .ok dev → dev.device = g info.Path) := by
  constructor
  · intro gdi f h hopen
    unfold gdi_Open at hopen
    cases hf : f gdi.Device with
    | error err => simp [hf] at hopen
    | ok d =>
      simp only [hf] at hopen
      by_cases hmiss : (scanEndpoints ⟨gdi, 0, 0, some d⟩
          gdi.Endpoints).REndpoint = 0 ∨
          (scanEndpoints ⟨gdi, 0, 0, some d⟩ gdi.Endpoints).WEndpoint = 0
      · simp [hmiss] at hopen
        exact hopen ▸ rfl
      · simp [hmiss] at hopen
        exact hopen ▸ rfl
  · intro info g dev hopen
    unfold di_Open at hopen
    cases hg : g info.Path with
    | none => simp [hg] at hopen
    | some d =>
      simp only [hg, Except.ok.injEq] at hopen
      rw [← hopen]

/-- C9 amended, witness: the backend open on the fixture descriptor's
native reference, and a concrete HID open producing a handle whose
native reference is the path-open result. -/
theorem descriptor_native_ref_flow_witness :
    openOk interruptPairInfo.Device = .ok 9 ∧
    (Device.mk exampleHidInfo (some 4)).device =
      (fun _ => some 4 : String → Option Nat) exampleHidInfo.Path :=
  ⟨descriptor_native_ref_flow.1 interruptPairInfo openOk 9 rfl,
    descriptor_native_ref_flow.2 exampleHidInfo (fun _ => some 4)
      (Device.mk exampleHidInfo (some 4)) rfl⟩

end Hid
